import Mathlib

/-!
Verification of the ESP32 autonomous rover control core.

Shallow embedding of the repository's C++ sources:
  - `src/hardware/MotorEncoder.cpp`   (4x quadrature decoding)
  - `src/hardware/MotorController.cpp` (wheel velocity PID, stop-lock)
  - `src/core/SharedData.cpp`          (mutex-guarded shared store, angle utilities)
  - `src/tasks/NavigationTask.cpp`     (guidance loop, waypoint sequencing)
  - `src/tasks/ManualControlTask.cpp`  (manual drive, obstacle safety check)

C++ `float`/`double` arithmetic is embedded over `ℚ`, `int`/`long` over `ℤ`,
`unsigned long` (millis) over `ℕ` with explicit 32-bit rollover arithmetic
where the source performs it.
-/

/-! ## Arduino / C numeric primitives -/

/-- Arduino `constrain` on integers: `(x<lo)?lo:((x>hi)?hi:x)`. -/
def constrainI (x lo hi : ℤ) : ℤ :=
  if x < lo then lo else if x > hi then hi else x

/-- Arduino `constrain` on floats (embedded as `ℚ`). -/
def constrainQ (x lo hi : ℚ) : ℚ :=
  if x < lo then lo else if x > hi then hi else x

/-- C cast from floating point to `int`: truncation toward zero. -/
def truncQ (q : ℚ) : ℤ :=
  if 0 ≤ q then ⌊q⌋ else ⌈q⌉

/-- C `fmod`: remainder with the sign of the dividend,
`fmod(a,b) = a - b * trunc(a/b)`. -/
def fmodQ (a b : ℚ) : ℚ :=
  a - b * (truncQ (a / b) : ℚ)

theorem truncQ_intCast (n : ℤ) : truncQ (n : ℚ) = n := by
  unfold truncQ
  split
  · exact Int.floor_intCast n
  · exact Int.ceil_intCast n

theorem truncQ_zero : truncQ 0 = 0 := by
  simpa using truncQ_intCast 0

/-! ## MotorEncoder (`src/hardware/MotorEncoder.cpp`)

The 2-bit quadrature channel state `(A << 1) | B` is embedded as `Fin 4`;
the signed position counter (`volatile long position`) as `ℤ`.
-/

namespace MotorEncoder

/-- The 16-entry transition table `QUADRATURE_LUT`, indexed by
`(prevState << 2) | currState`.  Values: `0` = no change / invalid (skipped),
`1` = forward (CW), `-1` = backward (CCW). -/
def QUADRATURE_LUT : List ℤ :=
  [ 0, -1,  1,  0,
    1,  0,  0, -1,
   -1,  0,  0,  1,
    0,  1, -1,  0]

/-- The interrupt-handler-owned counter state: `position` and `lastState`. -/
structure CounterState where
  position : ℤ
  lastState : Fin 4
  deriving DecidableEq

/-- `MotorEncoder::handleInterrupt`, given the freshly sampled channel state
`currState = (digitalRead(pinA) << 1) | digitalRead(pinB)`. -/
def handleInterrupt (reverse : Bool) (e : CounterState) (currState : Fin 4) :
    CounterState :=
  if currState = e.lastState then e
  else
    let index : ℕ := e.lastState.val * 4 + currState.val
    let direction := QUADRATURE_LUT.getD index 0
    let direction := if reverse then -direction else direction
    { position := e.position + direction, lastState := currState }

/-- Run the interrupt handler over a sequence of sampled channel states. -/
def runEncoder (reverse : Bool) (e : CounterState) : List (Fin 4) → CounterState
  | [] => e
  | c :: rest => runEncoder reverse (handleInterrupt reverse e c) rest

/-- `MotorEncoder::getPosition` (atomic snapshot of `position`). -/
def getPosition (e : CounterState) : ℤ := e.position

/-- The per-transition contribution the specification describes: the
transition-table value for `(last, curr)`, sign-flipped when reversed. -/
def quadContribution (reverse : Bool) (last curr : Fin 4) : ℤ :=
  (if reverse then -1 else 1) * QUADRATURE_LUT.getD (last.val * 4 + curr.val) 0

/-- Signed sum of transition-table contributions over a sequence of channel
states, tracking the previous state as the code stores `currState`. -/
def quadSpecSum (reverse : Bool) (last : Fin 4) : List (Fin 4) → ℤ
  | [] => 0
  | c :: rest => quadContribution reverse last c + quadSpecSum reverse c rest

theorem quadContribution_self (reverse : Bool) (l : Fin 4) :
    quadContribution reverse l l = 0 := by
  fin_cases l <;> cases reverse <;> decide

theorem handleInterrupt_position (reverse : Bool) (e : CounterState)
    (c : Fin 4) :
    (handleInterrupt reverse e c).position
      = e.position + quadContribution reverse e.lastState c := by
  unfold handleInterrupt
  split
  · rename_i h
    rw [h, quadContribution_self]
    ring
  · unfold quadContribution
    cases reverse <;> simp

theorem handleInterrupt_lastState (reverse : Bool) (e : CounterState)
    (c : Fin 4) :
    (handleInterrupt reverse e c).lastState = c := by
  unfold handleInterrupt
  split
  · rename_i h
    exact h.symm
  · rfl

theorem runEncoder_position (reverse : Bool) (e : CounterState)
    (seq : List (Fin 4)) :
    (runEncoder reverse e seq).position
      = e.position + quadSpecSum reverse e.lastState seq := by
  induction seq generalizing e with
  | nil => simp [runEncoder, quadSpecSum]
  | cons c rest ih =>
    rw [runEncoder, quadSpecSum, ih]
    rw [handleInterrupt_position, handleInterrupt_lastState]
    ring

/-- Fin-4 exclusive-or of the two channel bits viewed as a pair. -/
def bothBitsFlip (l c : Fin 4) : Prop := l.val ^^^ c.val = 3

instance (l c : Fin 4) : Decidable (bothBitsFlip l c) := by
  unfold bothBitsFlip; infer_instance

end MotorEncoder

/-- C3: For every sequence of quadrature channel states starting from the
initial 2-bit state, the position reported by `getPosition()` equals the
signed sum over the sequence of the transition-table values; each
transition-table entry is `+1`, `-1`, or `0`, it is `0` exactly on the
unchanged and invalid (both-bits-flip) transitions, and the sign of every
contribution is flipped when the encoder is configured reversed. -/
theorem C3_encoder_position_is_lut_sum :
    (∀ (reverse : Bool) (s0 : Fin 4) (seq : List (Fin 4)),
      MotorEncoder.getPosition
          (MotorEncoder.runEncoder reverse ⟨0, s0⟩ seq)
        = MotorEncoder.quadSpecSum reverse s0 seq) ∧
    (∀ l c : Fin 4,
      MotorEncoder.QUADRATURE_LUT.getD (l.val * 4 + c.val) 0 = 0 ∨
      MotorEncoder.QUADRATURE_LUT.getD (l.val * 4 + c.val) 0 = 1 ∨
      MotorEncoder.QUADRATURE_LUT.getD (l.val * 4 + c.val) 0 = -1) ∧
    (∀ l c : Fin 4,
      (MotorEncoder.QUADRATURE_LUT.getD (l.val * 4 + c.val) 0 = 0
        ↔ (l = c ∨ MotorEncoder.bothBitsFlip l c))) ∧
    (∀ (l c : Fin 4),
      MotorEncoder.quadContribution true l c
        = -MotorEncoder.quadContribution false l c) := by
  refine ⟨?_, ?_, ?_, ?_⟩
  · intro reverse s0 seq
    have h := MotorEncoder.runEncoder_position reverse ⟨0, s0⟩ seq
    simpa [MotorEncoder.getPosition] using h
  · intro l c; fin_cases l <;> fin_cases c <;> decide
  · intro l c; fin_cases l <;> fin_cases c <;> decide
  · intro l c; fin_cases l <;> fin_cases c <;> decide

/-! ## MotorController (`src/hardware/MotorController.cpp`)

Wheel velocity PID with feedforward, anti-windup, derivative-on-measurement
and a target-direction dead zone, plus the drive-level stop-lock.
-/

namespace MotorController

/-- `MOTOR_PID_KP` (config.h: `2.0f`). -/
def MOTOR_PID_KP : ℚ := 2

/-- `MOTOR_PID_KI` (config.h: `0.1f`). -/
def MOTOR_PID_KI : ℚ := 1 / 10

/-- `MOTOR_PID_KD` (config.h: `0.05f`). -/
def MOTOR_PID_KD : ℚ := 1 / 20

/-- `MOTOR_PID_INTERVAL_MS` (config.h: 20 ms, 50 Hz). -/
def MOTOR_PID_INTERVAL_MS : ℕ := 20

/-- The per-wheel `PIDState` struct. -/
structure PIDState where
  targetSpeed : ℚ
  currentSpeed : ℚ
  errorSum : ℚ
  lastError : ℚ
  maxCountsPerInterval : ℚ
  currentPWM : ℤ
  lastTime : ℕ
  deriving DecidableEq

/-- The encoder fields `updatePID` interacts with through
`MotorEncoder::getPositionDelta`: absolute `position` and the
`lastSpeedPosition` baseline. -/
structure EncoderTracking where
  position : ℤ
  lastSpeedPosition : ℤ
  deriving DecidableEq

/-- `MotorEncoder::getPositionDelta`: returns `position - lastSpeedPosition`
and moves the baseline to the current position. -/
def getPositionDelta (e : EncoderTracking) : ℤ × EncoderTracking :=
  (e.position - e.lastSpeedPosition, { e with lastSpeedPosition := e.position })

/-- The rollover-protected elapsed-time computation at the top of
`MotorController::updatePID` (`millis()` wraps every 2^32 ms). -/
def rolloverSafeDt (now lastTime : ℕ) : ℕ :=
  if now ≥ lastTime then now - lastTime
  else (4294967295 - lastTime) + now + 1

/-- `MotorController::updatePID`.  Returns the new PID state, the new encoder
tracking state and the PWM output (`pwmOutput`).  The encoder stall
detection block is omitted: it only emits a serial warning and updates
function-static debounce variables, and does not influence the PID state,
the encoder baseline or the output. -/
def updatePID (kp ki kd : ℚ) (now : ℕ) (state : PIDState)
    (enc : EncoderTracking) : PIDState × EncoderTracking × ℤ :=
  let dt := rolloverSafeDt now state.lastTime
  if dt < MOTOR_PID_INTERVAL_MS then (state, enc, state.currentPWM)
  else
    let delta := (getPositionDelta enc).1
    let enc' := (getPositionDelta enc).2
    let measuredSpeed : ℚ := (delta : ℚ)
    let prevMeasuredSpeed := state.currentSpeed
    let error := state.targetSpeed - measuredSpeed
    let maxIntegral := 128 / ki
    let errorSum := constrainQ (state.errorSum + error) (-maxIntegral) maxIntegral
    let dMeasurement := measuredSpeed - prevMeasuredSpeed
    let pTerm := kp * error
    let iTerm := ki * errorSum
    let dTerm := -kd * dMeasurement
    let feedforward :=
      if state.maxCountsPerInterval > 0 ∧ state.targetSpeed ≠ 0 then
        state.targetSpeed / state.maxCountsPerInterval * 200
      else 0
    let output := feedforward + pTerm + iTerm + dTerm
    let pwm := constrainI (truncQ output) (-255) 255
    let pwm :=
      if state.targetSpeed ≠ 0 then
        let targetDirection : ℤ := if state.targetSpeed > 0 then 1 else -1
        if |pwm| < 40 then targetDirection * 40 else pwm
      else pwm
    ({ state with
        currentSpeed := measuredSpeed,
        errorSum := errorSum,
        lastError := error,
        lastTime := now,
        currentPWM := pwm },
     enc', pwm)

end MotorController

/-- C8: if `updatePID` is invoked before the fixed 20 ms interval has elapsed
(rollover-safe elapsed time `< MOTOR_PID_INTERVAL_MS`), it returns the
previous `currentPWM` and leaves the whole PID state and the encoder's
delta baseline unchanged. -/
theorem C8_early_update_is_noop (kp ki kd : ℚ) (now : ℕ)
    (state : MotorController.PIDState) (enc : MotorController.EncoderTracking)
    (h : MotorController.rolloverSafeDt now state.lastTime
          < MotorController.MOTOR_PID_INTERVAL_MS) :
    MotorController.updatePID kp ki kd now state enc
      = (state, enc, state.currentPWM) := by
  unfold MotorController.updatePID
  simp [h]

/-- Witness for C8 at a concrete call 10 ms after the last accepted update. -/
theorem C8_early_update_is_noop_witness :
    MotorController.updatePID 2 (1/10) (1/20) 110
        ⟨5, 3, 1000, 7, 168, 99, 100⟩ ⟨42, 17⟩
      = (⟨5, 3, 1000, 7, 168, 99, 100⟩, ⟨42, 17⟩, 99) := by
  exact C8_early_update_is_noop 2 (1/10) (1/20) 110
    ⟨5, 3, 1000, 7, 168, 99, 100⟩ ⟨42, 17⟩ (by decide)

namespace MotorController

/-- One on-time PID update of the zero-input experiment: `updatePID` invoked
exactly `MOTOR_PID_INTERVAL_MS` after the last accepted update, with the
configured gains, on an encoder that has not moved since its baseline
(`delta = 0`, i.e. measured speed constantly zero).  Returns the new PID
state and the PWM output. -/
def zeroStep (s : PIDState) : PIDState × ℤ :=
  let r := updatePID MOTOR_PID_KP MOTOR_PID_KI MOTOR_PID_KD
    (s.lastTime + MOTOR_PID_INTERVAL_MS) s ⟨0, 0⟩
  (r.1, r.2.2)

/-- State after `n` on-time zero-input updates. -/
def zeroRunState (s : PIDState) : ℕ → PIDState
  | 0 => s
  | n + 1 => (zeroStep (zeroRunState s n)).1

/-- PWM output of the `(n+1)`-th on-time zero-input update. -/
def zeroRunOutput (s : PIDState) (n : ℕ) : ℤ :=
  (zeroStep (zeroRunState s n)).2

/-- Claim C4 as stated: from every initial wheel-PID state with target held
at zero, the zero-input run's output is eventually zero and remains zero. -/
def C4_claim : Prop :=
  ∀ s : PIDState, s.targetSpeed = 0 →
    ∃ N : ℕ, ∀ n : ℕ, N ≤ n → zeroRunOutput s n = 0

theorem zeroStep_stuck (l m : ℚ) (p : ℤ) (lt : ℕ) :
    zeroStep ⟨0, 0, 1000, l, m, p, lt⟩
      = (⟨0, 0, 1000, 0, m, 100, lt + 20⟩, 100) := by
  simp [zeroStep, updatePID, rolloverSafeDt, getPositionDelta,
        MOTOR_PID_INTERVAL_MS, MOTOR_PID_KP, MOTOR_PID_KI, MOTOR_PID_KD,
        constrainQ, constrainI, truncQ]
  norm_num

theorem zeroStep_zeroSum (c l m : ℚ) (p : ℤ) (lt : ℕ) :
    zeroStep ⟨0, c, 0, l, m, p, lt⟩
      = (⟨0, 0, 0, 0, m, constrainI (truncQ (c / 20)) (-255) 255, lt + 20⟩,
         constrainI (truncQ (c / 20)) (-255) 255) := by
  simp [zeroStep, updatePID, rolloverSafeDt, getPositionDelta,
        MOTOR_PID_INTERVAL_MS, MOTOR_PID_KP, MOTOR_PID_KI, MOTOR_PID_KD,
        constrainQ]
  norm_num
  ring_nf

theorem zeroStep_settled (l m : ℚ) (p : ℤ) (lt : ℕ) :
    zeroStep ⟨0, 0, 0, l, m, p, lt⟩ = (⟨0, 0, 0, 0, m, 0, lt + 20⟩, 0) := by
  have h := zeroStep_zeroSum 0 l m p lt
  simpa [constrainI, truncQ] using h

theorem zeroRunState_stuck_shape (l : ℚ) (p : ℤ) (lt : ℕ) :
    ∀ n : ℕ, ∃ (l' : ℚ) (p' : ℤ) (lt' : ℕ),
      zeroRunState ⟨0, 0, 1000, l, 168, p, lt⟩ n = ⟨0, 0, 1000, l', 168, p', lt'⟩ := by
  intro n
  induction n with
  | zero => exact ⟨l, p, lt, rfl⟩
  | succ n ih =>
    obtain ⟨l', p', lt', h⟩ := ih
    refine ⟨0, 100, lt' + 20, ?_⟩
    rw [zeroRunState, h, zeroStep_stuck]

theorem zeroRunOutput_stuck (l : ℚ) (p : ℤ) (lt : ℕ) (n : ℕ) :
    zeroRunOutput ⟨0, 0, 1000, l, 168, p, lt⟩ n = 100 := by
  obtain ⟨l', p', lt', h⟩ := zeroRunState_stuck_shape l p lt n
  rw [zeroRunOutput, h, zeroStep_stuck]

end MotorController

/-- C4 counterexample: the claim fails on the code.  A wheel-PID state with a
residual integral accumulator of `1000` counts, zero target and zero
measured speed keeps producing a constant PWM output of `100` at every
on-time update — the integral term never decays, because the error is
identically zero. -/
theorem C4_counterexample_residual_integral : ¬ MotorController.C4_claim := by
  intro hcl
  obtain ⟨N, hN⟩ := hcl ⟨0, 0, 1000, 0, 168, 0, 0⟩ rfl
  have h := hN N le_rfl
  rw [MotorController.zeroRunOutput_stuck] at h
  exact absurd h (by decide)

namespace MotorController

theorem zeroRunState_settled_shape (c l m : ℚ) (p : ℤ) (lt : ℕ) :
    ∀ k : ℕ, ∃ (p' : ℤ) (lt' : ℕ),
      zeroRunState ⟨0, c, 0, l, m, p, lt⟩ (k + 1) = ⟨0, 0, 0, 0, m, p', lt'⟩ := by
  intro k
  induction k with
  | zero =>
    refine ⟨constrainI (truncQ (c / 20)) (-255) 255, lt + 20, ?_⟩
    rw [zeroRunState, zeroRunState, zeroStep_zeroSum]
  | succ k ih =>
    obtain ⟨p', lt', h⟩ := ih
    refine ⟨0, lt' + 20, ?_⟩
    rw [zeroRunState, h, zeroStep_settled]

end MotorController

/-- C4 (amended): for every initial wheel-PID state whose integral
accumulator is zero, iterating the PID update at exactly the fixed interval
with target speed constantly zero and measured encoder delta constantly
zero yields output zero from the second accepted update onward (the first
update may emit one transient derivative-on-measurement kick).  A
sufficiently large residual integral accumulator — such as 1000 counts,
whose integral term `ki * errorSum = 100` survives the truncating `(int)`
cast — instead holds a constant nonzero output forever, as the
counterexample shows; a small residual (|errorSum| < 10) truncates to a
constant output of zero. -/
theorem C4_zero_run_output_settles (s : MotorController.PIDState)
    (h0 : s.targetSpeed = 0) (h1 : s.errorSum = 0) :
    ∀ n : ℕ, 1 ≤ n → MotorController.zeroRunOutput s n = 0 := by
  obtain ⟨t, c, e, l, m, p, lt⟩ := s
  have ht : t = 0 := h0
  have he : e = 0 := h1
  subst ht; subst he
  intro n hn
  obtain ⟨k, rfl⟩ : ∃ k, n = k + 1 := ⟨n - 1, (Nat.succ_pred_eq_of_pos hn).symm⟩
  obtain ⟨p', lt', h⟩ :=
    MotorController.zeroRunState_settled_shape c l m p lt k
  rw [MotorController.zeroRunOutput, h, MotorController.zeroStep_settled]

/-- Witness for the amended C4 at a concrete state with a stale measured
speed and stale PWM but zero integral accumulator. -/
theorem C4_zero_run_output_settles_witness :
    MotorController.zeroRunOutput ⟨0, 50, 0, 7, 168, 77, 0⟩ 1 = 0 :=
  C4_zero_run_output_settles ⟨0, 50, 0, 7, 168, 77, 0⟩ rfl rfl 1 le_rfl

namespace MotorController

/-- The `MotorController` object state: motor bookkeeping, PID states, the
owned encoders, and the hardware outputs it drives (H-bridge direction pins
`IN1`/`IN2` per side and the two LEDC PWM duties). -/
structure MCState where
  leftMotorSpeed : ℤ
  rightMotorSpeed : ℤ
  isInitialized : Bool
  pidEnabled : Bool
  kp : ℚ
  ki : ℚ
  kd : ℚ
  motorsStopped : Bool
  pidLeft : PIDState
  pidRight : PIDState
  leftEnc : EncoderTracking
  rightEnc : EncoderTracking
  leftIn1 : Bool
  leftIn2 : Bool
  rightIn1 : Bool
  rightIn2 : Bool
  leftPWMDuty : ℤ
  rightPWMDuty : ℤ
  deriving DecidableEq

/-- `MotorController::stopMotors`: engage the stop lock, reset the PID
targets, integral accumulators and current PWM, brake both H-bridges and
zero both PWM duties. -/
def stopMotors (s : MCState) : MCState :=
  if !s.isInitialized then s
  else
    { s with
      motorsStopped := true,
      pidLeft := { s.pidLeft with targetSpeed := 0, errorSum := 0, currentPWM := 0 },
      pidRight := { s.pidRight with targetSpeed := 0, errorSum := 0, currentPWM := 0 },
      leftMotorSpeed := 0,
      rightMotorSpeed := 0,
      leftIn1 := false, leftIn2 := false,
      rightIn1 := false, rightIn2 := false,
      leftPWMDuty := 0, rightPWMDuty := 0 }

/-- `MotorController::update`: the PID control tick.  A no-op unless
initialized with PID enabled, and a no-op while the stop lock
(`motorsStopped`) is set; otherwise runs both wheel PIDs and writes
direction and PWM duty for both motors. -/
def update (now : ℕ) (s : MCState) : MCState :=
  if !s.isInitialized || !s.pidEnabled then s
  else if s.motorsStopped then s
  else
    let rl := updatePID s.kp s.ki s.kd now s.pidLeft s.leftEnc
    let rr := updatePID s.kp s.ki s.kd now s.pidRight s.rightEnc
    let leftPWM := rl.2.2
    let rightPWM := rr.2.2
    let s1 := { s with pidLeft := rl.1, leftEnc := rl.2.1,
                       pidRight := rr.1, rightEnc := rr.2.1 }
    let s2 :=
      if leftPWM ≥ 0 then
        { s1 with leftIn1 := true, leftIn2 := false, leftPWMDuty := leftPWM }
      else
        { s1 with leftIn1 := false, leftIn2 := true, leftPWMDuty := -leftPWM }
    let s3 :=
      if rightPWM ≥ 0 then
        { s2 with rightIn1 := true, rightIn2 := false, rightPWMDuty := rightPWM }
      else
        { s2 with rightIn1 := false, rightIn2 := true, rightPWMDuty := -rightPWM }
    { s3 with leftMotorSpeed := |leftPWM|, rightMotorSpeed := |rightPWM| }

/-- `MotorController::setLeftMotorSpeed` (open-loop; the left motor command
is inverted to compensate for the backward wiring). -/
def setLeftMotorSpeed (speed : ℤ) (s : MCState) : MCState :=
  if !s.isInitialized then s
  else
    let sp := -(constrainI speed (-255) 255)
    let s1 :=
      if sp > 0 then
        { s with leftIn1 := true, leftIn2 := false, leftPWMDuty := sp }
      else if sp < 0 then
        { s with leftIn1 := false, leftIn2 := true, leftPWMDuty := -sp }
      else
        { s with leftPWMDuty := 0 }
    { s1 with leftMotorSpeed := sp }

/-- `MotorController::setRightMotorSpeed`. -/
def setRightMotorSpeed (speed : ℤ) (s : MCState) : MCState :=
  if !s.isInitialized then s
  else
    let sp := constrainI speed (-255) 255
    if s.pidEnabled then
      { s with pidRight := { s.pidRight with
          targetSpeed := (sp : ℚ) * s.pidRight.maxCountsPerInterval / 255 } }
    else
      let s1 := { s with rightMotorSpeed := |sp| }
      if sp > 0 then
        { s1 with rightIn1 := true, rightIn2 := false,
                  rightPWMDuty := s1.rightMotorSpeed }
      else if sp < 0 then
        { s1 with rightIn1 := false, rightIn2 := true,
                  rightPWMDuty := s1.rightMotorSpeed }
      else
        { s1 with rightIn1 := false, rightIn2 := false, rightPWMDuty := 0 }

/-- `MotorController::setMotorSpeeds`: clamp both inputs, clear the stop
lock when either clamped input is non-zero, then either retarget both wheel
PIDs (closed loop) or drive both motors open loop. -/
def setMotorSpeeds (leftSpeed rightSpeed : ℤ) (s : MCState) : MCState :=
  if !s.isInitialized then s
  else
    let l := constrainI leftSpeed (-255) 255
    let r := constrainI rightSpeed (-255) 255
    let s0 := if l ≠ 0 ∨ r ≠ 0 then { s with motorsStopped := false } else s
    if s0.pidEnabled then
      let li := -l
      { s0 with
        pidLeft := { s0.pidLeft with
          targetSpeed := (li : ℚ) * s0.pidLeft.maxCountsPerInterval / 255 },
        pidRight := { s0.pidRight with
          targetSpeed := (r : ℚ) * s0.pidRight.maxCountsPerInterval / 255 } }
    else
      setRightMotorSpeed r (setLeftMotorSpeed l s0)

/-- `MotorController::enablePID`. -/
def enablePID (enable : Bool) (s : MCState) : MCState :=
  let s0 := { s with pidEnabled := enable }
  if !enable then stopMotors s0
  else
    { s0 with
      pidLeft := { s0.pidLeft with errorSum := 0, lastError := 0, currentPWM := 0 },
      pidRight := { s0.pidRight with errorSum := 0, lastError := 0, currentPWM := 0 },
      leftEnc := (getPositionDelta s0.leftEnc).2,
      rightEnc := (getPositionDelta s0.rightEnc).2 }

theorem constrainI_eq_zero_iff (x : ℤ) : constrainI x (-255) 255 = 0 ↔ x = 0 := by
  unfold constrainI
  split_ifs with h1 h2 <;>
    [skip; skip; exact Iff.rfl] <;>
    constructor <;> intro h <;> first | omega | exact h.elim

theorem setLeftMotorSpeed_motorsStopped (x : ℤ) (t : MCState) :
    (setLeftMotorSpeed x t).motorsStopped = t.motorsStopped := by
  unfold setLeftMotorSpeed
  dsimp only
  split_ifs <;> rfl

theorem setRightMotorSpeed_motorsStopped (x : ℤ) (t : MCState) :
    (setRightMotorSpeed x t).motorsStopped = t.motorsStopped := by
  unfold setRightMotorSpeed
  dsimp only
  split_ifs <;> rfl

theorem setMotorSpeeds_motorsStopped (l r : ℤ) (t : MCState)
    (ht : t.isInitialized = true) :
    (setMotorSpeeds l r t).motorsStopped
      = if constrainI l (-255) 255 ≠ 0 ∨ constrainI r (-255) 255 ≠ 0
        then false else t.motorsStopped := by
  by_cases hc : constrainI l (-255) 255 ≠ 0 ∨ constrainI r (-255) 255 ≠ 0 <;>
    simp [setMotorSpeeds, ht, hc] <;>
    split_ifs <;>
    simp [setRightMotorSpeed_motorsStopped, setLeftMotorSpeed_motorsStopped]

end MotorController

namespace MotorController

/-- C1: for every prior PID and motor state of an initialized controller,
`stopMotors()` engages the stop lock, zeroes both wheels' PID targets,
integral accumulators and current PWM (and both PWM duties), a single
following `update()` tick is a no-op producing zero output on both wheels,
and the stop lock is cleared by a subsequent `setMotorSpeeds` call exactly
when at least one of its two inputs is non-zero (and by no other motor
command: `setLeftMotorSpeed`, `setRightMotorSpeed`, `update` and
`enablePID` all leave it set). -/
theorem C1_stop_lock_discipline (s : MCState) (h : s.isInitialized = true) :
    (stopMotors s).motorsStopped = true ∧
    (stopMotors s).pidLeft.targetSpeed = 0 ∧
    (stopMotors s).pidRight.targetSpeed = 0 ∧
    (stopMotors s).pidLeft.errorSum = 0 ∧
    (stopMotors s).pidRight.errorSum = 0 ∧
    (stopMotors s).pidLeft.currentPWM = 0 ∧
    (stopMotors s).pidRight.currentPWM = 0 ∧
    (stopMotors s).leftPWMDuty = 0 ∧
    (stopMotors s).rightPWMDuty = 0 ∧
    (∀ now : ℕ, update now (stopMotors s) = stopMotors s) ∧
    (∀ l r : ℤ, ((setMotorSpeeds l r (stopMotors s)).motorsStopped = false
        ↔ (l ≠ 0 ∨ r ≠ 0))) ∧
    (∀ x : ℤ, (setLeftMotorSpeed x (stopMotors s)).motorsStopped = true) ∧
    (∀ x : ℤ, (setRightMotorSpeed x (stopMotors s)).motorsStopped = true) ∧
    (∀ b : Bool, (enablePID b (stopMotors s)).motorsStopped = true) := by
  have hms : (stopMotors s).motorsStopped = true := by simp [stopMotors, h]
  have hinit : (stopMotors s).isInitialized = true := by simp [stopMotors, h]
  refine ⟨hms, ?_, ?_, ?_, ?_, ?_, ?_, ?_, ?_, ?_, ?_, ?_, ?_, ?_⟩
  · simp [stopMotors, h]
  · simp [stopMotors, h]
  · simp [stopMotors, h]
  · simp [stopMotors, h]
  · simp [stopMotors, h]
  · simp [stopMotors, h]
  · simp [stopMotors, h]
  · simp [stopMotors, h]
  · intro now
    unfold update
    split_ifs <;> rfl
  · intro l r
    rw [setMotorSpeeds_motorsStopped _ _ _ hinit, hms]
    simp only [ne_eq, constrainI_eq_zero_iff]
    split_ifs with hcond
    · simpa using hcond
    · simpa using hcond
  · intro x
    rw [setLeftMotorSpeed_motorsStopped]
    exact hms
  · intro x
    rw [setRightMotorSpeed_motorsStopped]
    exact hms
  · intro b
    cases b
    · simp [enablePID, stopMotors, h]
    · simp [enablePID, stopMotors, h]

/-- A concrete initialized controller state with non-trivial residual PID
state, used as a witness input. -/
def sampleState : MCState :=
  { leftMotorSpeed := 3, rightMotorSpeed := 4, isInitialized := true,
    pidEnabled := true, kp := 2, ki := 1/10, kd := 1/20, motorsStopped := false,
    pidLeft := ⟨50, 10, 700, 3, 168, 120, 1000⟩,
    pidRight := ⟨-50, -10, -700, -3, 168, -120, 1000⟩,
    leftEnc := ⟨500, 480⟩, rightEnc := ⟨-500, -480⟩,
    leftIn1 := true, leftIn2 := false, rightIn1 := false, rightIn2 := true,
    leftPWMDuty := 120, rightPWMDuty := 120 }

/-- Witness for C1 at a concrete initialized state. -/
theorem C1_stop_lock_discipline_witness :
    (stopMotors sampleState).motorsStopped = true ∧
    (stopMotors sampleState).pidLeft.targetSpeed = 0 ∧
    update 12345 (stopMotors sampleState) = stopMotors sampleState ∧
    ((setMotorSpeeds 60 0 (stopMotors sampleState)).motorsStopped = false
      ↔ ((60 : ℤ) ≠ 0 ∨ (0 : ℤ) ≠ 0)) ∧
    ((setMotorSpeeds 0 0 (stopMotors sampleState)).motorsStopped = false
      ↔ ((0 : ℤ) ≠ 0 ∨ (0 : ℤ) ≠ 0)) := by
  obtain ⟨h1, h2, -, -, -, -, -, -, -, hup, hsm, -, -, -⟩ :=
    C1_stop_lock_discipline sampleState rfl
  exact ⟨h1, h2, hup 12345, hsm 60 0, hsm 0 0⟩

end MotorController

/-! ## SharedData (`src/core/SharedData.cpp`)

Each accessor takes its record's mutex with either a 100 ms bounded wait
(`pdMS_TO_TICKS(100)`) or an unbounded wait (`portMAX_DELAY`).  A bounded
acquire is modeled by the `lockOk` parameter: `lockOk = true` means
`xSemaphoreTake` returned `pdTRUE` within the timeout, `lockOk = false`
means it timed out.  Unbounded-wait accessors never time out (absent
deadlock) and are modeled as total functions.
-/

namespace SharedData

/-- `MAX_WAYPOINTS` (config.h: 10). -/
def MAX_WAYPOINTS : ℤ := 10

/-- `GPSPosition` struct. -/
structure GPSPosition where
  latitude : ℚ
  longitude : ℚ
  isValid : Bool
  timestamp : ℕ
  deriving DecidableEq

/-- `IMUData` struct: orientation, validity and timestamp.  The purely
diagnostic vector payloads (quaternion, raw acceleration/gyro/magnetometer,
linear acceleration, gravity, calibration status) are carried by the same
copy-in/copy-out operations and are omitted from the embedding. -/
structure IMUData where
  heading : ℚ
  roll : ℚ
  pitch : ℚ
  temperature : ℚ
  isValid : Bool
  timestamp : ℕ
  deriving DecidableEq

/-- `Waypoint` struct. -/
structure Waypoint where
  latitude : ℚ
  longitude : ℚ
  isValid : Bool
  deriving DecidableEq

/-- Default-constructed `Waypoint()`. -/
def defaultWaypoint : Waypoint := ⟨0, 0, false⟩

/-- `MissionState` enum. -/
inductive MissionState where
  | MISSION_IDLE
  | MISSION_PLANNED
  | MISSION_ACTIVE
  | MISSION_PAUSED
  | MISSION_COMPLETED
  | MISSION_ABORTED
  deriving DecidableEq

/-- `RoverState` struct. -/
structure RoverState where
  isNavigating : Bool
  isConnected : Bool
  currentWaypointIndex : ℤ
  totalWaypoints : ℤ
  currentSpeed : ℚ
  lastUpdateTime : ℕ
  missionState : MissionState
  currentSegmentIndex : ℤ
  totalSegments : ℤ
  missionProgress : ℚ
  distanceToTarget : ℚ
  totalDistance : ℚ
  crossTrackError : ℚ
  missionStartTime : ℕ
  missionElapsedTime : ℕ
  estimatedTimeRemaining : ℚ
  frontObstacleDistance : ℚ
  leftEncoderCount : ℤ
  rightEncoderCount : ℤ
  leftMotorRPM : ℚ
  rightMotorRPM : ℚ
  deriving DecidableEq

/-- `SystemStatus` struct. -/
structure SystemStatus where
  wifiConnected : Bool
  gpsFix : Bool
  imuCalibrated : Bool
  wifiSignalStrength : ℤ
  batteryVoltage : ℚ
  uptime : ℕ
  deriving DecidableEq

/-- `MissionParameters` struct. -/
structure MissionParameters where
  speed_mps : ℚ
  cte_threshold_m : ℚ
  mission_timeout_s : ℕ
  total_distance_m : ℚ
  estimated_duration_s : ℕ
  deriving DecidableEq

/-- The mutex-guarded payloads of the `SharedData` object that the modeled
accessors touch (path segments and the mission id string are unbounded-wait
mission-path records as well and add nothing to the claims). -/
structure SDState where
  currentPosition : GPSPosition
  currentIMUData : IMUData
  waypoints : List Waypoint
  roverState : RoverState
  systemStatus : SystemStatus
  missionParams : MissionParameters
  deriving DecidableEq

/-- `SharedData::getPosition` (100 ms bounded wait): copy out on success,
report failure on timeout. -/
def getPosition (lockOk : Bool) (s : SDState) : Option GPSPosition :=
  if lockOk then some s.currentPosition else none

/-- `SharedData::setPosition` (100 ms bounded wait). -/
def setPosition (lockOk : Bool) (p : GPSPosition) (s : SDState) :
    SDState × Bool :=
  if lockOk then ({ s with currentPosition := p }, true) else (s, false)

/-- `SharedData::getIMUData` (100 ms bounded wait). -/
def getIMUData (lockOk : Bool) (s : SDState) : Option IMUData :=
  if lockOk then some s.currentIMUData else none

/-- `SharedData::setIMUData` (100 ms bounded wait). -/
def setIMUData (lockOk : Bool) (d : IMUData) (s : SDState) : SDState × Bool :=
  if lockOk then ({ s with currentIMUData := d }, true) else (s, false)

/-- `SharedData::getWaypoint` (100 ms bounded wait).  Returns the copied
waypoint (`none` = returned `false`, caller's out-parameter untouched) and
whether the lock acquire was attempted at all. -/
def getWaypoint (lockOk : Bool) (index : ℤ) (s : SDState) :
    Option Waypoint × Bool :=
  if index < 0 ∨ index ≥ MAX_WAYPOINTS then (none, false)
  else if lockOk then (some (s.waypoints.getD index.toNat defaultWaypoint), true)
  else (none, true)

/-- `SharedData::setWaypoint` (100 ms bounded wait).  Returns the new store
state, the boolean result, and whether the lock acquire was attempted. -/
def setWaypoint (lockOk : Bool) (index : ℤ) (wp : Waypoint) (s : SDState) :
    SDState × Bool × Bool :=
  if index < 0 ∨ index ≥ MAX_WAYPOINTS then (s, false, false)
  else if lockOk then
    ({ s with waypoints := s.waypoints.set index.toNat wp }, true, true)
  else (s, false, true)

/-- `SharedData::clearWaypoints` (100 ms bounded wait). -/
def clearWaypoints (lockOk : Bool) (s : SDState) : SDState × Bool :=
  if lockOk then
    ({ s with waypoints := List.replicate 10 defaultWaypoint }, true)
  else (s, false)

/-- `SharedData::getWaypointCount` (100 ms bounded wait): counts the valid
waypoints; on lock timeout the initial `count = 0` is returned with no
failure indication. -/
def getWaypointCount (lockOk : Bool) (s : SDState) : ℤ :=
  if lockOk then (s.waypoints.countP (fun w => w.isValid) : ℤ) else 0

/-- `SharedData::getRoverState` (100 ms bounded wait). -/
def getRoverState (lockOk : Bool) (s : SDState) : Option RoverState :=
  if lockOk then some s.roverState else none

/-- `SharedData::setRoverState` (100 ms bounded wait). -/
def setRoverState (lockOk : Bool) (rs : RoverState) (s : SDState) :
    SDState × Bool :=
  if lockOk then ({ s with roverState := rs }, true) else (s, false)

/-- `SharedData::getSystemStatus` (100 ms bounded wait). -/
def getSystemStatus (lockOk : Bool) (s : SDState) : Option SystemStatus :=
  if lockOk then some s.systemStatus else none

/-- `SharedData::setSystemStatus` (100 ms bounded wait). -/
def setSystemStatus (lockOk : Bool) (st : SystemStatus) (s : SDState) :
    SDState × Bool :=
  if lockOk then ({ s with systemStatus := st }, true) else (s, false)

/-- `SharedData::setMissionParameters` (unbounded wait, never times out). -/
def setMissionParameters (p : MissionParameters) (s : SDState) : SDState :=
  { s with missionParams := p }

/-- `SharedData::getMissionParameters` (unbounded wait, never times out). -/
def getMissionParameters (s : SDState) : MissionParameters :=
  s.missionParams

/-- `SharedData::setMissionState` (unbounded wait, never times out). -/
def setMissionState (st : MissionState) (s : SDState) : SDState :=
  { s with roverState := { s.roverState with missionState := st } }

/-- `SharedData::getMissionState` (unbounded wait, never times out). -/
def getMissionState (s : SDState) : MissionState :=
  s.roverState.missionState

/-- The accessors of `SharedData.cpp`, by name. -/
inductive Accessor where
  | getPosition
  | setPosition
  | getIMUData
  | setIMUData
  | getWaypoint
  | setWaypoint
  | clearWaypoints
  | getWaypointCount
  | addWaypoint
  | getRoverState
  | setRoverState
  | getSystemStatus
  | setSystemStatus
  | setMissionParameters
  | getMissionParameters
  | setPathSegments
  | getPathSegmentCount
  | getPathSegment
  | setMissionId
  | getMissionId
  | setMissionState
  | getMissionState
  | updateMissionProgress
  deriving DecidableEq

/-- The wait bound each accessor passes to `xSemaphoreTake`, transcribed
from `SharedData.cpp`: `some 100` for `pdMS_TO_TICKS(100)`, `none` for
`portMAX_DELAY`. -/
def acquireTimeoutMs : Accessor → Option ℕ
  | .getPosition => some 100
  | .setPosition => some 100
  | .getIMUData => some 100
  | .setIMUData => some 100
  | .getWaypoint => some 100
  | .setWaypoint => some 100
  | .clearWaypoints => some 100
  | .getWaypointCount => some 100
  | .addWaypoint => some 100
  | .getRoverState => some 100
  | .setRoverState => some 100
  | .getSystemStatus => some 100
  | .setSystemStatus => some 100
  | .setMissionParameters => none
  | .getMissionParameters => none
  | .setPathSegments => none
  | .getPathSegmentCount => none
  | .getPathSegment => none
  | .setMissionId => none
  | .getMissionId => none
  | .setMissionState => none
  | .getMissionState => none
  | .updateMissionProgress => none

/-- Whether the accessor belongs to the mission-data group of
`SharedData.cpp` (the section implementing mission parameters, path
segments, mission id, mission state and mission progress — the rarely
touched mission-parameter path). -/
def onMissionDataPath : Accessor → Bool
  | .setMissionParameters => true
  | .getMissionParameters => true
  | .setPathSegments => true
  | .getPathSegmentCount => true
  | .getPathSegment => true
  | .setMissionId => true
  | .getMissionId => true
  | .setMissionState => true
  | .getMissionState => true
  | .updateMissionProgress => true
  | _ => false

/-- Claim C7 as stated: every accessor outside the mission-data path uses
the 100 ms bounded wait, mission-data accessors are the only unbounded
ones, and every bounded accessor reports a lock timeout as a failure the
caller can recognize — in particular a timed-out call is never
indistinguishable from a successful copy-out. -/
def C7_claim : Prop :=
  (∀ a : Accessor, onMissionDataPath a = false → acquireTimeoutMs a = some 100) ∧
  (∀ a : Accessor, onMissionDataPath a = true → acquireTimeoutMs a = none) ∧
  (∀ s, getPosition false s = none) ∧
  (∀ p s, setPosition false p s = (s, false)) ∧
  (∀ s, getIMUData false s = none) ∧
  (∀ d s, setIMUData false d s = (s, false)) ∧
  (∀ i s, (getWaypoint false i s).1 = none) ∧
  (∀ i w s, (setWaypoint false i w s).1 = s ∧ (setWaypoint false i w s).2.1 = false) ∧
  (∀ s, clearWaypoints false s = (s, false)) ∧
  (∀ s, getRoverState false s = none) ∧
  (∀ rs s, setRoverState false rs s = (s, false)) ∧
  (∀ s, getSystemStatus false s = none) ∧
  (∀ st s, setSystemStatus false st s = (s, false)) ∧
  (∀ s s' : SDState, getWaypointCount false s ≠ getWaypointCount true s')

/-- A concrete shared store holding one valid waypoint. -/
def sdSample : SDState :=
  { currentPosition := ⟨10, 20, true, 5000⟩,
    currentIMUData := ⟨90, 0, 0, 25, true, 5000⟩,
    waypoints := ⟨1, 2, true⟩ :: List.replicate 9 defaultWaypoint,
    roverState :=
      { isNavigating := true, isConnected := true, currentWaypointIndex := 0,
        totalWaypoints := 1, currentSpeed := 3, lastUpdateTime := 5000,
        missionState := MissionState.MISSION_ACTIVE, currentSegmentIndex := 0,
        totalSegments := 0, missionProgress := 0, distanceToTarget := 7,
        totalDistance := 7, crossTrackError := 0, missionStartTime := 0,
        missionElapsedTime := 0, estimatedTimeRemaining := 0,
        frontObstacleDistance := 50, leftEncoderCount := 0,
        rightEncoderCount := 0, leftMotorRPM := 0, rightMotorRPM := 0 },
    systemStatus := ⟨true, true, true, -40, 8, 5000⟩,
    missionParams := ⟨1, 2, 3600, 0, 0⟩ }

/-- The same store with no valid waypoint. -/
def sdEmpty : SDState :=
  { sdSample with waypoints := List.replicate 10 defaultWaypoint }

end SharedData

/-- C7 counterexample: the claim fails on the code.  `getWaypointCount`
returns the plain count `0` when its 100 ms lock acquire times out — the
very value a successful read of an empty store returns — so the timeout is
not reported to the caller as "unavailable". -/
theorem C7_counterexample_waypoint_count : ¬ SharedData.C7_claim := by
  intro h
  exact h.2.2.2.2.2.2.2.2.2.2.2.2.2 SharedData.sdSample SharedData.sdEmpty rfl

/-- C7 (amended): every flag-returning accessor uses the 100 ms bounded wait
and reports a lock timeout by returning failure with the store and the
caller's out-parameter untouched; the mission-data accessors are exactly
the unbounded-wait ones; but `getWaypointCount` on lock timeout silently
returns a count of `0` with no failure indication. -/
theorem C7_bounded_wait_accessors :
    (∀ a : SharedData.Accessor, SharedData.onMissionDataPath a = false →
      SharedData.acquireTimeoutMs a = some 100) ∧
    (∀ a : SharedData.Accessor, SharedData.onMissionDataPath a = true →
      SharedData.acquireTimeoutMs a = none) ∧
    (∀ s, SharedData.getPosition false s = none) ∧
    (∀ p s, SharedData.setPosition false p s = (s, false)) ∧
    (∀ s, SharedData.getIMUData false s = none) ∧
    (∀ d s, SharedData.setIMUData false d s = (s, false)) ∧
    (∀ i s, (SharedData.getWaypoint false i s).1 = none) ∧
    (∀ i w s, (SharedData.setWaypoint false i w s).1 = s ∧
      (SharedData.setWaypoint false i w s).2.1 = false) ∧
    (∀ s, SharedData.clearWaypoints false s = (s, false)) ∧
    (∀ s, SharedData.getRoverState false s = none) ∧
    (∀ rs s, SharedData.setRoverState false rs s = (s, false)) ∧
    (∀ s, SharedData.getSystemStatus false s = none) ∧
    (∀ st s, SharedData.setSystemStatus false st s = (s, false)) ∧
    (∀ s, SharedData.getWaypointCount false s = 0) := by
  refine ⟨?_, ?_, ?_, ?_, ?_, ?_, ?_, ?_, ?_, ?_, ?_, ?_, ?_, ?_⟩
  · intro a ha
    cases a <;> simp_all [SharedData.onMissionDataPath, SharedData.acquireTimeoutMs]
  · intro a ha
    cases a <;> simp_all [SharedData.onMissionDataPath, SharedData.acquireTimeoutMs]
  · intro s; rfl
  · intro p s; rfl
  · intro s; rfl
  · intro d s; rfl
  · intro i s
    unfold SharedData.getWaypoint
    split_ifs with h1 h2 <;> first | rfl | exact h2.elim
  · intro i w s
    unfold SharedData.setWaypoint
    split_ifs with h1 h2 <;> first | exact ⟨rfl, rfl⟩ | exact h2.elim
  · intro s; rfl
  · intro s; rfl
  · intro rs s; rfl
  · intro s; rfl
  · intro st s; rfl
  · intro s; rfl

/-- C10: for every index outside `[0, MAX_WAYPOINTS)`, `getWaypoint` and
`setWaypoint` return `false` without attempting the lock acquire, without
reading or modifying the waypoint array, and (for `getWaypoint`) without
touching the caller's out-parameter. -/
theorem C10_waypoint_index_guard (index : ℤ)
    (h : index < 0 ∨ index ≥ SharedData.MAX_WAYPOINTS) :
    ∀ (lockOk : Bool) (wp : SharedData.Waypoint) (s : SharedData.SDState),
      SharedData.getWaypoint lockOk index s = (none, false) ∧
      SharedData.setWaypoint lockOk index wp s = (s, false, false) := by
  intro lockOk wp s
  unfold SharedData.getWaypoint SharedData.setWaypoint
  rw [if_pos h, if_pos h]
  exact ⟨rfl, rfl⟩

/-- Witness for C10 at the out-of-range index 12. -/
theorem C10_waypoint_index_guard_witness :
    SharedData.getWaypoint true 12 SharedData.sdSample = (none, false) ∧
    SharedData.setWaypoint true 12 ⟨3, 4, true⟩ SharedData.sdSample
      = (SharedData.sdSample, false, false) :=
  C10_waypoint_index_guard 12 (Or.inr (by decide)) true ⟨3, 4, true⟩
    SharedData.sdSample

/-! ## Angle utilities (`src/core/SharedData.cpp`, file-scope functions) and
the NavigationTask heading-error computation (`src/tasks/NavigationTask.cpp`,
`calculatePID`). -/

/-- `normalizeAngle` (SharedData.cpp): `fmod(angle, 360)` followed by one
conditional ±360 correction. -/
def normalizeAngle (angle : ℚ) : ℚ :=
  let a := fmodQ angle 360
  if a > 180 then a - 360
  else if a ≤ -180 then a + 360
  else a

theorem fmodQ_360_bounds (a : ℚ) : -360 < fmodQ a 360 ∧ fmodQ a 360 < 360 := by
  unfold fmodQ truncQ
  have ha : a = 360 * (a / 360) := by field_simp
  split_ifs with h
  · have h1 : ((⌊a / 360⌋ : ℤ) : ℚ) ≤ a / 360 := Int.floor_le _
    have h2 : a / 360 < (⌊a / 360⌋ : ℤ) + 1 := Int.lt_floor_add_one _
    constructor <;> linarith
  · have h1 : a / 360 ≤ ((⌈a / 360⌉ : ℤ) : ℚ) := Int.le_ceil _
    have h2 : ((⌈a / 360⌉ : ℤ) : ℚ) < a / 360 + 1 := Int.ceil_lt_add_one _
    constructor <;> linarith

theorem normalizeAngle_mem (x : ℚ) :
    -180 < normalizeAngle x ∧ normalizeAngle x ≤ 180 := by
  obtain ⟨hl, hr⟩ := fmodQ_360_bounds x
  simp only [normalizeAngle]
  split_ifs with h1 h2 <;> constructor <;> linarith

theorem normalizeAngle_fixed (y : ℚ) (h1 : -180 < y) (h2 : y ≤ 180) :
    normalizeAngle y = y := by
  have hmod : fmodQ y 360 = y := by
    unfold fmodQ truncQ
    split_ifs with h
    · have hz : ⌊y / 360⌋ = 0 := by
        rw [Int.floor_eq_zero_iff, Set.mem_Ico]
        refine ⟨h, ?_⟩
        rw [div_lt_one (by norm_num : (0:ℚ) < 360)]
        linarith
      rw [hz]
      norm_num
    · have hz : ⌈y / 360⌉ = 0 := by
        rw [Int.ceil_eq_zero_iff, Set.mem_Ioc]
        constructor
        · rw [lt_div_iff₀ (by norm_num : (0:ℚ) < 360)]
          linarith
        · linarith [lt_of_not_le h]
      rw [hz]
      norm_num
  simp only [normalizeAngle]
  rw [hmod]
  rw [if_neg (by linarith), if_neg (by linarith)]

/-- C9: `normalizeAngle` always returns a value in (−180, 180], and it is
idempotent: `normalizeAngle (normalizeAngle x) = normalizeAngle x`. -/
theorem C9_normalizeAngle_range_and_idempotent (x : ℚ) :
    (-180 < normalizeAngle x ∧ normalizeAngle x ≤ 180) ∧
    normalizeAngle (normalizeAngle x) = normalizeAngle x := by
  have h := normalizeAngle_mem x
  exact ⟨h, normalizeAngle_fixed _ h.1 h.2⟩

/-- `K_XTE` (config.h: `10.0` degrees per meter). -/
def K_XTE : ℚ := 10

/-- The heading-error computation of `NavigationTask::calculatePID`:
`headingError = normalizeAngle(targetBearing − currentHeading)`, then
`headingError += K_XTE * crossTrackError`, then the code's second
"normalization" — a single conditional ±360 adjustment. -/
def calculateHeadingError (targetBearing currentHeading crossTrackError : ℚ) :
    ℚ :=
  let headingError :=
    normalizeAngle (targetBearing - currentHeading) + K_XTE * crossTrackError
  if headingError > 180 then headingError - 360
  else if headingError < -180 then headingError + 360
  else headingError

/-- Claim C5 as stated: for every bearing, heading and cross-track error,
the twice-normalized heading error lies in (−180, 180]. -/
def C5_claim : Prop :=
  ∀ b h x : ℚ,
    -180 < calculateHeadingError b h x ∧ calculateHeadingError b h x ≤ 180

theorem calculateHeadingError_at_large_xte :
    calculateHeadingError 0 0 100 = 640 := by
  norm_num [calculateHeadingError, normalizeAngle, fmodQ, truncQ, K_XTE]

/-- C5 counterexample: the claim fails on the code.  With bearing 0,
heading 0 and a 100 m cross-track error the intermediate value is 1000°,
and the single ±360 adjustment leaves 640°, outside (−180, 180]. -/
theorem C5_counterexample_large_xte : ¬ C5_claim := by
  intro hcl
  have h := (hcl 0 0 100).2
  rw [calculateHeadingError_at_large_xte] at h
  linarith

/-- C5 (amended): the twice-normalized heading error lies in (−180, 180]
whenever the intermediate value `normalizeAngle(bearing − heading) +
K_XTE * crossTrackError` lies in (−540, 540] and is not exactly −180; the
second normalization is a single ±360 adjustment rather than a full
reduction, so larger cross-track corrections escape the interval. -/
theorem C5_heading_error_range (b h x : ℚ)
    (h1 : -540 < normalizeAngle (b - h) + K_XTE * x)
    (h2 : normalizeAngle (b - h) + K_XTE * x ≤ 540)
    (h3 : normalizeAngle (b - h) + K_XTE * x ≠ -180) :
    -180 < calculateHeadingError b h x ∧ calculateHeadingError b h x ≤ 180 := by
  simp only [calculateHeadingError]
  split_ifs with g1 g2
  · constructor <;> linarith
  · constructor
    · linarith
    · linarith
  · constructor
    · exact lt_of_le_of_ne (by linarith) fun he => h3 he.symm
    · linarith

/-- Witness for the amended C5 at bearing 0, heading 0, cross-track error
1 m (intermediate value 10°). -/
theorem C5_heading_error_range_witness :
    -180 < calculateHeadingError 0 0 1 ∧ calculateHeadingError 0 0 1 ≤ 180 := by
  have hn : normalizeAngle (0 - 0) + K_XTE * 1 = 10 := by
    norm_num [normalizeAngle, fmodQ, truncQ, K_XTE]
  exact C5_heading_error_range 0 0 1 (by rw [hn]; norm_num)
    (by rw [hn]; norm_num) (by rw [hn]; norm_num)

/-! ## Obstacle safety checks (`NavigationTask::run`, `ManualControlTask::run`)

Both task loops read `frontObstacleDistance` from the shared rover state
each iteration and test `dist > 0 && dist < 5.0`. -/

/-- The obstacle test both tasks apply: `dist > 0 && dist < 5.0`. -/
def obstacleDetected (dist : ℚ) : Bool :=
  decide (dist > 0) && decide (dist < 5)

namespace NavigationTask

/-- Whether one iteration of `NavigationTask::run`'s safety check calls
`stopNavigation()` (which stops the motors): it does iff an obstacle is
detected and the task is currently navigating. -/
def safetyStops (dist : ℚ) (isNavigating : Bool) : Bool :=
  obstacleDetected dist && isNavigating

end NavigationTask

namespace ManualControlTask

/-- Whether one iteration of `ManualControlTask::run`'s safety check calls
`stopAllMovement()`: it does iff an obstacle is detected, the task is
moving, and the current direction string compares equal to `"forward"`. -/
def safetyStops (dist : ℚ) (isMoving : Bool) (currentDirection : String) :
    Bool :=
  obstacleDetected dist && (isMoving && (currentDirection == "forward"))

end ManualControlTask

/-- Claim C2 as stated: a published obstacle distance that is positive and
below 5 cm forces a stop for every in-flight guidance command and for
every in-flight manual command, regardless of the manual direction. -/
def C2_claim : Prop :=
  ∀ dist : ℚ, 0 < dist → dist < 5 →
    NavigationTask.safetyStops dist true = true ∧
    (∀ dir : String, ManualControlTask.safetyStops dist true dir = true)

/-- C2 counterexample: the claim fails on the code.  At obstacle distance
3 cm, a manual command moving in direction `"backward"` is not stopped —
the manual task's safety check fires only when the current direction is
`"forward"`. -/
theorem C2_counterexample_backward_manual : ¬ C2_claim := by
  intro hcl
  have h := (hcl 3 (by norm_num) (by norm_num)).2 "backward"
  have h2 : ManualControlTask.safetyStops 3 true "backward" = false := by
    decide
  rw [h2] at h
  exact Bool.false_ne_true h

/-- C2 (amended): a positive obstacle distance below 5 cm forces a stop of
every in-flight guidance command, and of an in-flight manual command
exactly when its current direction is `"forward"`; manual motion in any
other direction is not pre-empted. -/
theorem C2_obstacle_stop (dist : ℚ) (hp : 0 < dist) (hlt : dist < 5) :
    NavigationTask.safetyStops dist true = true ∧
    ManualControlTask.safetyStops dist true "forward" = true ∧
    (∀ dir : String, dir ≠ "forward" →
      ManualControlTask.safetyStops dist true dir = false) := by
  have hob : obstacleDetected dist = true := by
    simp only [obstacleDetected, Bool.and_eq_true, decide_eq_true_eq]
    exact ⟨hp, hlt⟩
  refine ⟨?_, ?_, ?_⟩
  · simp [NavigationTask.safetyStops, hob]
  · simp [ManualControlTask.safetyStops, hob]
  · intro dir hdir
    simp [ManualControlTask.safetyStops, hob, hdir]

/-- Witness for the amended C2 at obstacle distance 3 cm and manual
direction `"left"`. -/
theorem C2_obstacle_stop_witness :
    NavigationTask.safetyStops 3 true = true ∧
    ManualControlTask.safetyStops 3 true "forward" = true ∧
    ManualControlTask.safetyStops 3 true "left" = false := by
  obtain ⟨h1, h2, h3⟩ := C2_obstacle_stop 3 (by norm_num) (by norm_num)
  exact ⟨h1, h2, h3 "left" (by decide)⟩

namespace NavigationTask

/-- The `NavigationTask` fields the waypoint-sequencing logic touches,
together with the shared rover-state fields it writes through
`getRoverState`/`setRoverState` (`missionState`, `currentSpeed`) and the
drive's stop lock (`motorsStopped`, set by `motorController.stopMotors`). -/
structure NavState where
  isNavigating : Bool
  currentWaypointIndex : ℤ
  pidIntegral : ℚ
  pidLastError : ℚ
  missionState : SharedData.MissionState
  currentSpeed : ℚ
  motorsStopped : Bool
  deriving DecidableEq

/-- `NavigationTask::stopNavigation`: no-op when not navigating; otherwise
stops the motors, clears the navigating flag and zeroes the reported
speed.  The mission state is copied through `getRoverState` /
`setRoverState` unchanged. -/
def stopNavigation (g : NavState) : NavState :=
  if !g.isNavigating then g
  else { g with motorsStopped := true, isNavigating := false, currentSpeed := 0 }

/-- `NavigationTask::moveToNextWaypoint` with the current waypoint count
`count` (`sharedData.getWaypointCount()`): increment the index; if it
reaches the count, stop navigation, else reset the heading-PID integral
and last error for the new leg. -/
def moveToNextWaypoint (count : ℤ) (g : NavState) : NavState :=
  if g.currentWaypointIndex + 1 ≥ count then
    stopNavigation { g with currentWaypointIndex := g.currentWaypointIndex + 1 }
  else
    { g with currentWaypointIndex := g.currentWaypointIndex + 1,
             pidIntegral := 0, pidLastError := 0 }

/-- The state reset performed by `NavigationTask::startNavigation` when
waypoints exist: index 0, PID cleared, navigating set. -/
def startNavigation (g : NavState) : NavState :=
  { g with currentWaypointIndex := 0, pidIntegral := 0, pidLastError := 0,
           isNavigating := true }

/-- The guidance loop after `n` waypoint-reached events. -/
def reachEvents (count : ℤ) (g : NavState) : ℕ → NavState
  | 0 => g
  | n + 1 => moveToNextWaypoint count (reachEvents count g n)

/-- A concrete pre-mission task state (mission marked active by the
command intake, residual PID state). -/
def navSample : NavState :=
  ⟨false, 5, 33, 4, SharedData.MissionState.MISSION_ACTIVE, 7, false⟩

end NavigationTask

/-- Claim C6 as stated: with N valid waypoints (0 < N ≤ capacity), starting
the mission and reaching waypoints visits indices 0..N−1 in increasing
order, and on reaching the final waypoint the drive is stopped and
MissionState transitions to Completed. -/
def C6_claim : Prop :=
  ∀ (N : ℕ) (g0 : NavigationTask.NavState), 0 < N →
    (N : ℤ) ≤ SharedData.MAX_WAYPOINTS →
    (∀ k : ℕ, k < N →
      (NavigationTask.reachEvents (N : ℤ)
        (NavigationTask.startNavigation g0) k).currentWaypointIndex = (k : ℤ) ∧
      (NavigationTask.reachEvents (N : ℤ)
        (NavigationTask.startNavigation g0) k).isNavigating = true) ∧
    (NavigationTask.reachEvents (N : ℤ)
      (NavigationTask.startNavigation g0) N).motorsStopped = true ∧
    (NavigationTask.reachEvents (N : ℤ)
      (NavigationTask.startNavigation g0) N).isNavigating = false ∧
    (NavigationTask.reachEvents (N : ℤ)
      (NavigationTask.startNavigation g0) N).missionState
        = SharedData.MissionState.MISSION_COMPLETED

/-- C6 counterexample: the claim fails on the code.  Completing a
one-waypoint mission started while the shared mission state is Active
stops the drive and clears the navigating flag, but the mission state is
left at Active: nothing in the repository ever writes
`MISSION_COMPLETED`. -/
theorem C6_counterexample_missionState : ¬ C6_claim := by
  intro hcl
  have h := (hcl 1 NavigationTask.navSample (by norm_num)
    (by norm_num [SharedData.MAX_WAYPOINTS])).2.2.2
  have h2 : (NavigationTask.reachEvents 1
      (NavigationTask.startNavigation NavigationTask.navSample) 1).missionState
        = SharedData.MissionState.MISSION_ACTIVE := by decide
  norm_num at h
  rw [h2] at h
  exact absurd h (by decide)

/-- C6 (amended): with N valid waypoints (0 < N ≤ capacity), starting the
mission and reaching waypoints visits indices 0..N−1 in increasing order,
and on reaching the final waypoint the drive is stopped and the navigating
flag cleared — but MissionState is left unchanged (the guidance loop never
sets Completed). -/
theorem C6_waypoint_sequencing (N : ℕ) (g0 : NavigationTask.NavState)
    (hpos : 0 < N) (hcap : (N : ℤ) ≤ SharedData.MAX_WAYPOINTS) :
    (∀ k : ℕ, k < N →
      (NavigationTask.reachEvents (N : ℤ)
        (NavigationTask.startNavigation g0) k).currentWaypointIndex = (k : ℤ) ∧
      (NavigationTask.reachEvents (N : ℤ)
        (NavigationTask.startNavigation g0) k).isNavigating = true) ∧
    (NavigationTask.reachEvents (N : ℤ)
      (NavigationTask.startNavigation g0) N).motorsStopped = true ∧
    (NavigationTask.reachEvents (N : ℤ)
      (NavigationTask.startNavigation g0) N).isNavigating = false ∧
    (NavigationTask.reachEvents (N : ℤ)
      (NavigationTask.startNavigation g0) N).missionState = g0.missionState ∧
    (NavigationTask.reachEvents (N : ℤ)
      (NavigationTask.startNavigation g0) N).currentWaypointIndex = (N : ℤ) := by
  have inv : ∀ k : ℕ, k < N →
      (NavigationTask.reachEvents (N : ℤ)
        (NavigationTask.startNavigation g0) k).currentWaypointIndex = (k : ℤ) ∧
      (NavigationTask.reachEvents (N : ℤ)
        (NavigationTask.startNavigation g0) k).isNavigating = true ∧
      (NavigationTask.reachEvents (N : ℤ)
        (NavigationTask.startNavigation g0) k).missionState = g0.missionState := by
    intro k
    induction k with
    | zero =>
      intro _
      refine ⟨?_, ?_, ?_⟩ <;>
        simp [NavigationTask.reachEvents, NavigationTask.startNavigation]
    | succ k ih =>
      intro hk
      obtain ⟨h1, h2, h3⟩ := ih (Nat.lt_of_succ_lt hk)
      have hlt : (k : ℤ) + 1 < (N : ℤ) := by exact_mod_cast hk
      rw [NavigationTask.reachEvents]
      unfold NavigationTask.moveToNextWaypoint
      rw [h1]
      rw [if_neg (not_le.mpr hlt)]
      refine ⟨?_, ?_, ?_⟩ <;> simp [h2, h3]
  obtain ⟨M, rfl⟩ : ∃ M, N = M + 1 := ⟨N - 1, (Nat.succ_pred_eq_of_pos hpos).symm⟩
  obtain ⟨h1, h2, h3⟩ := inv M (Nat.lt_succ_self M)
  refine ⟨fun k hk => ⟨(inv k hk).1, (inv k hk).2.1⟩, ?_⟩
  push_cast at h1 h2 h3 ⊢
  rw [NavigationTask.reachEvents]
  unfold NavigationTask.moveToNextWaypoint
  rw [h1]
  rw [if_pos (by omega)]
  unfold NavigationTask.stopNavigation
  rw [if_neg (by simp [h2])]
  refine ⟨rfl, rfl, by simp [h3], rfl⟩

/-- Witness for the amended C6: a concrete two-waypoint mission from the
sample state visits index 1 while navigating and ends stopped with the
mission state untouched. -/
theorem C6_waypoint_sequencing_witness :
    ((NavigationTask.reachEvents 2
        (NavigationTask.startNavigation NavigationTask.navSample)
        1).currentWaypointIndex = 1 ∧
      (NavigationTask.reachEvents 2
        (NavigationTask.startNavigation NavigationTask.navSample)
        1).isNavigating = true) ∧
    (NavigationTask.reachEvents 2
      (NavigationTask.startNavigation NavigationTask.navSample)
      2).motorsStopped = true ∧
    (NavigationTask.reachEvents 2
      (NavigationTask.startNavigation NavigationTask.navSample)
      2).isNavigating = false ∧
    (NavigationTask.reachEvents 2
      (NavigationTask.startNavigation NavigationTask.navSample)
      2).missionState = NavigationTask.navSample.missionState ∧
    (NavigationTask.reachEvents 2
      (NavigationTask.startNavigation NavigationTask.navSample)
      2).currentWaypointIndex = 2 := by
  obtain ⟨hvisit, hfin⟩ := C6_waypoint_sequencing 2 NavigationTask.navSample
    (by norm_num) (by norm_num [SharedData.MAX_WAYPOINTS])
  exact ⟨hvisit 1 (by norm_num), hfin⟩

/-- Witness for the amended C7 at concrete accessors and a concrete store. -/
theorem C7_bounded_wait_accessors_witness :
    SharedData.acquireTimeoutMs SharedData.Accessor.getPosition = some 100 ∧
    SharedData.acquireTimeoutMs SharedData.Accessor.setMissionState = none ∧
    SharedData.getPosition false SharedData.sdSample = none ∧
    SharedData.getWaypointCount false SharedData.sdSample = 0 := by
  obtain ⟨ha, hb, hc, -, -, -, -, -, -, -, -, -, -, hcount⟩ :=
    C7_bounded_wait_accessors
  exact ⟨ha _ rfl, hb _ rfl, hc _, hcount _⟩
